import Mathlib

/-!
Shallow embedding of the codeenigma protection pipeline
(`src/codeenigma/cli.py`, `src/codeenigma/runtime/cython/builder.py`,
`src/codeenigma/bundler/{poetry,standard,uv}.py`) and verification of the
specified properties.

File contents (Python strings) are modelled as `String` / `List Char`,
paths as lists of components, and effectful build steps as explicit traces
of events or as functions returning the produced values together with
flags recording which external actions ran.
-/

namespace CodeEnigma

/-! ## Python primitives used by the code -/

/-- Python `lst[-1]`: the last element, raising `IndexError` on an empty list. -/
inductive PyErr where
  | indexError
  | fileNotFoundError
  | calledProcessError
  | valueError
  | invalidPyprojectError
  deriving DecidableEq, Repr

/-- Python negative indexing `lst[-1]`: last element or `IndexError`. -/
def pyLast {α : Type} (l : List α) : Except PyErr α :=
  match l.getLast? with
  | none => .error .indexError
  | some x => .ok x

/-- Fuel-indexed core of Python `str.replace`: scan left to right, replace
each non-overlapping occurrence of `pat` by `rep`, resume scanning after the
replacement.  `fuel ≥ length of the scanned list` makes it total. -/
def pyReplaceAux (pat rep : List Char) : Nat → List Char → List Char
  | 0, l => l
  | _ + 1, [] => []
  | n + 1, x :: xs =>
    if pat ≠ [] ∧ pat.isPrefixOf (x :: xs) then
      rep ++ pyReplaceAux pat rep n ((x :: xs).drop pat.length)
    else
      x :: pyReplaceAux pat rep n xs

/-- Python `s.replace(pat, rep)` on `List Char` (for nonempty `pat`). -/
def pyReplace (pat rep l : List Char) : List Char :=
  pyReplaceAux pat rep l.length l

/-- Python `s.replace(pat, rep)` on `String`. -/
def pyStrReplace (pat rep s : String) : String :=
  ⟨pyReplace pat.data rep.data s.data⟩

/-- Does `pat` occur as a contiguous sublist of `l`?  (Python `pat in s`.) -/
def containsSub (pat : List Char) : List Char → Bool
  | [] => pat.isPrefixOf ([] : List Char)
  | x :: xs => pat.isPrefixOf (x :: xs) || containsSub pat xs

/-! ## `CythonRuntimeBuilder.prepare_runtime_code`
(`src/codeenigma/runtime/cython/builder.py`, lines 82–89)

```python
def prepare_runtime_code(self, runtime_pyx_path: Path) -> None:
    with runtime_pyx_path.open("w", encoding="utf-8") as f:
        code = self.strategy.get_runtime_code()
        for extension in self.extensions:
            code += extension.get_code()
        f.write(code)
```

The strategy contributes `get_runtime_code()`; each registered extension
contributes `get_code()`.  We model the strategy's routine source and the
extensions' fragments as the strings those calls return, and a file system
as a map from paths to optional contents. -/

/-- The single string `prepare_runtime_code` builds and writes:
start from the strategy's runtime routine, then append each extension's
fragment in registration order (the Python `for` loop). -/
def prepare_runtime_code (runtimeCode : String) (fragments : List String) : String :=
  fragments.foldl (fun code fragment => code ++ fragment) runtimeCode

/-- A file system: paths (as strings) to optional file contents. -/
def FileSystem : Type := String → Option String

/-- Opening a path in `"w"` mode and writing `content` replaces that file's
content and touches nothing else. -/
def writeFile (path content : String) (fs : FileSystem) : FileSystem :=
  fun q => if q = path then some content else fs q

/-- Concatenation of the fragments in registration order. -/
def concatFragments (fragments : List String) : String :=
  fragments.foldr (fun fragment rest => fragment ++ rest) ""

/-! ## `CythonRuntimeBuilder.build`
(`src/codeenigma/runtime/cython/builder.py`, lines 91–136)

```python
def build(self, output_dir: Path) -> None:
    output_dir.mkdir(exist_ok=True)
    codeenigma_runtime_pyx = output_dir.joinpath("codeenigma_runtime.pyx")
    self.prepare_runtime_code(codeenigma_runtime_pyx)
    self.create_cython_setup(output_dir)
    module_file = self.bundler.create_extension(output_dir)
    for temp_file in ["setup.py", "codeenigma_runtime.pyx", "codeenigma_runtime.c"]:
        output_dir.joinpath(temp_file).unlink(missing_ok=True)
    with suppress(Exception):
        output_dir.joinpath("build").rmdir()
    codeenigma_runtime_dir = output_dir.joinpath("codeenigma_runtime")
    codeenigma_runtime_dir.mkdir(exist_ok=True)
    path_module = codeenigma_runtime_dir.joinpath(module_file.name)
    shutil.move(module_file, path_module)
    init_path = output_dir.joinpath("codeenigma_runtime")
    self.create_init_file(init_path)
    self.create_pyproject_toml(f"codeenigma_runtime/{module_file.name}", output_dir)
    self.bundler.create_wheel(codeenigma_runtime_dir, output_dir)
```

The side effects of `build` are modelled as an event trace; the bundler
calls may raise, modelled by the booleans `extOk` (`create_extension`
succeeds) and `wheelOk` (`create_wheel` succeeds).  A Python exception
aborts the statement sequence at the raising call, so the trace stops
there and the `raised` flag records that the exception propagates. -/

/-- One observable side effect of `CythonRuntimeBuilder.build`.
The `unlink` event carries the name of the file removed from `output_dir`. -/
inductive BuildEv where
  | mkdirOutput
  | writeRuntimePyx
  | writeSetupPy
  | callCreateExt
  | unlink (name : String)
  | rmdirBuild
  | mkdirRuntimePkg
  | moveModuleFile
  | createInitFile
  | createPyprojectToml
  | callCreateWheel
  deriving DecidableEq, Repr

/-- Event trace of `CythonRuntimeBuilder.build` together with whether an
exception propagates to the caller. -/
def cythonBuild (extOk wheelOk : Bool) : List BuildEv × Bool :=
  let pre : List BuildEv :=
    [.mkdirOutput, .writeRuntimePyx, .writeSetupPy, .callCreateExt]
  if !extOk then
    (pre, true)
  else
    (pre ++
      [.unlink "setup.py", .unlink "codeenigma_runtime.pyx",
       .unlink "codeenigma_runtime.c", .rmdirBuild,
       .mkdirRuntimePkg, .moveModuleFile, .createInitFile,
       .createPyprojectToml, .callCreateWheel],
     !wheelOk)

/-- Which files among the intermediates exist in `output_dir` after a trace:
fold the write/unlink events over a set of file names. -/
def applyBuildEv (files : List String) : BuildEv → List String
  | .writeRuntimePyx => "codeenigma_runtime.pyx" :: files
  | .writeSetupPy => "setup.py" :: files
  | .callCreateExt => "codeenigma_runtime.c" :: files
  | .unlink n => files.erase n
  | _ => files

/-- File names present in `output_dir` (among those `build` itself writes
or removes) after running the events of a trace in order. -/
def finalFiles (trace : List BuildEv) : List String :=
  trace.foldl applyBuildEv []

/-! ## The `obfuscate` command's input validation
(`src/codeenigma/cli.py`, lines 74–112)

```python
module_path = Path(module_path)
if not module_path.exists():
    ...; raise typer.Exit(1)
if not module_path.is_dir():
    ...; raise typer.Exit(1)
if expiration_date:
    try:
        expiration_date = datetime.fromisoformat(expiration_date)
    except ValueError:
        ...; raise typer.Exit(1) from None
if expiration_date and expiration_date < datetime.now(tz=UTC):
    ...; raise typer.Exit(1)
... o = Orchestrator(...)
```

A `datetime` is modelled as a UTC instant plus an awareness flag:
`datetime.fromisoformat` returns a naive datetime unless the string carries
an offset, and Python's `<` between a naive and an aware datetime raises
`TypeError`.  `datetime.now(tz=UTC)` is aware.  An empty `expiration_date`
string is falsy, so `if expiration_date:` skips the parse, and `None` (no
option) likewise.  The `Orchestrator` is constructed only on the `proceed`
outcome; every other outcome prints an error and exits with code 1 (either
the explicit `typer.Exit(1)` or the uncaught `TypeError`, which typer
reports and turns into exit code 1). -/

/-- A Python `datetime`: UTC instant plus tz-awareness flag. -/
structure PyDatetime where
  instant : Int
  aware : Bool
  deriving DecidableEq, Repr

/-- Python `<` on datetimes: comparing a naive with an aware datetime
raises `TypeError` (modelled as `Except.error`). -/
def pyDatetimeLt (a b : PyDatetime) : Except Unit Bool :=
  if a.aware = b.aware then .ok (decide (a.instant < b.instant))
  else .error ()

/-- Outcome of the `obfuscate` command's prologue. -/
inductive CliOutcome where
  | exitMissingPath
  | exitNotDir
  | exitBadFormat
  | exitPastDate
  | typeErrorCrash
  | proceed (hasExpiry : Bool)
  deriving DecidableEq, Repr

/-- `true` on every outcome that terminates the process with exit code 1
before the `Orchestrator` is constructed. -/
def exitsCodeOne : CliOutcome → Bool
  | .proceed _ => false
  | _ => true

/-- The validation prologue of `obfuscate`, up to the construction of the
`Orchestrator` (`.proceed`).  `parseIso` models `datetime.fromisoformat`;
`now` models `datetime.now(tz=UTC)`. -/
def obfuscateValidate (pathExists pathIsDir : Bool)
    (expiration : Option String)
    (parseIso : String → Except Unit PyDatetime)
    (now : PyDatetime) : CliOutcome :=
  if !pathExists then .exitMissingPath
  else if !pathIsDir then .exitNotDir
  else
    match expiration with
    | none => .proceed false
    | some s =>
      if s = "" then .proceed false
      else
        match parseIso s with
        | .error _ => .exitBadFormat
        | .ok d =>
          match pyDatetimeLt d now with
          | .error _ => .typeErrorCrash
          | .ok true => .exitPastDate
          | .ok false => .proceed true

/-! ## `PoetryBundler` (`src/codeenigma/bundler/poetry.py`)

`remove_readme_before_build` rewrites `pyproject.toml` in place:

```python
with open(pyproject_path) as f:
    content = f.read()
with open(pyproject_path, "w") as f:
    f.write(content.replace('readme = "README.md"', ""))
```

`UVBundler.remove_readme_before_build` (`src/codeenigma/bundler/uv.py`,
lines 14–21) performs the same content transformation (its extra
`read_text()` result is immediately overwritten by the `open` read). -/

/-- The removed literal, as a character list. -/
def readmeLit : List Char := "readme = \"README.md\"".data

/-- Content transformation of `PoetryBundler.remove_readme_before_build`. -/
def remove_readme_before_build (content : List Char) : List Char :=
  pyReplace readmeLit [] content

/-- Content transformation of `UVBundler.remove_readme_before_build`: the
initial `read_text()` result is discarded by the second read, after which
the body coincides with the Poetry variant. -/
def uv_remove_readme_before_build (content : List Char) : List Char :=
  let _readText := content
  pyReplace readmeLit [] content

/-!
`PoetryBundler.create_wheel` (lines 21–62):

```python
if not (module_path.parent / "pyproject.toml").exists():
    raise FileNotFoundError(...)
with open(module_path.parent / "pyproject.toml", "rb") as f:
    content = tomllib.load(f)
    try:
        version = content["tool"]["poetry"]["version"]
    except KeyError as e:
        raise Exception("Invalid pyproject.toml file, not in poetry format") from e
if kwargs.get("remove_readme", True):
    self.remove_readme_before_build(module_path.parent / "pyproject.toml")
if environ.get("CODEENIGMA_BUILDING_EXE", "0") == "0":
    subprocess.run(["poetry", "build", "-f", "wheel"], ..., check=True)
    wheel_file = list((module_path.parent / "dist").glob(f"*{version}*.whl"))[-1]
    final_wheel_location = wheel_file
    if output_dir:
        ...; shutil.move(wheel_file, final_wheel_location)
    return final_wheel_location
```

When the environment variable is anything other than `"0"` the `if` body is
skipped and the function falls off its end, returning Python `None`
(modelled as `Option.none` in the `.ok` result). -/

/-- Result of a `create_wheel` run: the returned value (or raised error),
the `pyproject.toml` content after the run, and whether the `poetry build`
subprocess ran and a wheel was moved into `output_dir`. -/
structure WheelRun where
  result : Except PyErr (Option String)
  pyproject : List Char
  ranBuildSubprocess : Bool
  movedWheelToOutput : Bool
  deriving Repr

/-- `PoetryBundler.create_wheel`.  `pyprojectExists`: the `pyproject.toml`
exists; `hasPoetryVersion`: `content["tool"]["poetry"]["version"]` is
present; `pyproject`: the file's text; `removeReadme`: the
`kwargs.get("remove_readme", True)` value; `env`: the value of
`CODEENIGMA_BUILDING_EXE` (with its default `"0"` already applied);
`buildOk`: the `poetry build` subprocess exits successfully; `wheelGlob`:
the `dist` glob results; `outputDirGiven`: an `output_dir` was passed. -/
def poetry_create_wheel (pyprojectExists hasPoetryVersion : Bool)
    (pyproject : List Char) (removeReadme : Bool) (env : String)
    (buildOk : Bool) (wheelGlob : List String) (outputDirGiven : Bool) :
    WheelRun :=
  if !pyprojectExists then
    ⟨.error .fileNotFoundError, pyproject, false, false⟩
  else if !hasPoetryVersion then
    ⟨.error .invalidPyprojectError, pyproject, false, false⟩
  else
    let content := if removeReadme then remove_readme_before_build pyproject
                   else pyproject
    if env = "0" then
      if !buildOk then ⟨.error .calledProcessError, content, true, false⟩
      else
        match pyLast wheelGlob with
        | .error e => ⟨.error e, content, true, false⟩
        | .ok w => ⟨.ok (some w), content, true, outputDirGiven⟩
    else
      ⟨.ok none, content, false, false⟩

/-!
`create_extension` of the three bundlers.  Each one, after its own
preconditions and a successful compile subprocess, discovers the compiled
module with `list(location.glob(f"*{EXTENSION_COMPILED_MODULE}"))[-1]` —
`[-1]` on the raw `list(...)`, so an empty glob raises `IndexError`. -/

/-- `PoetryBundler.create_extension` (lines 64–106).  `setupInModule` /
`setupInParent`: where `setup.py` exists; `subprocessOk`: at least one of
the `poetry run` / `sys.executable` compile attempts succeeds; `globResults`:
the `location.glob(f"*{EXTENSION_COMPILED_MODULE}")` matches in order. -/
def poetry_create_extension (setupInModule setupInParent : Bool)
    (subprocessOk : Bool) (globResults : List String)
    (outputDirGiven : Bool) : Except PyErr String :=
  if !setupInModule && !setupInParent then .error .fileNotFoundError
  else if !subprocessOk then .error .calledProcessError
  else
    match pyLast globResults with
    | .error e => .error e
    | .ok moduleFile =>
      .ok (if outputDirGiven then "output_dir/" ++ moduleFile else moduleFile)

/-- `StandardBundler.create_extension` (`src/codeenigma/bundler/standard.py`,
lines 81–118).  `_check_for_setuptools_project` passes when the parent has a
`setup.py` or a `pyproject.toml` whose build backend mentions setuptools;
otherwise it raises `ValueError`. -/
def standard_create_extension (parentHasSetup parentPyprojectSetuptools : Bool)
    (subprocessOk : Bool) (globResults : List String)
    (outputDirGiven : Bool) : Except PyErr String :=
  if !parentHasSetup && !parentPyprojectSetuptools then .error .valueError
  else if !subprocessOk then .error .calledProcessError
  else
    match pyLast globResults with
    | .error e => .error e
    | .ok moduleFile =>
      .ok (if outputDirGiven then "location/" ++ moduleFile else moduleFile)

/-- `UVBundler.create_extension` (`src/codeenigma/bundler/uv.py`,
lines 72–113): same shape as the Poetry variant (`uv run` with a
`sys.executable` fallback). -/
def uv_create_extension (setupInModule setupInParent : Bool)
    (subprocessOk : Bool) (globResults : List String)
    (outputDirGiven : Bool) : Except PyErr String :=
  if !setupInModule && !setupInParent then .error .fileNotFoundError
  else if !subprocessOk then .error .calledProcessError
  else
    match pyLast globResults with
    | .error e => .error e
    | .ok moduleFile =>
      .ok (if outputDirGiven then "output_dir/" ++ moduleFile else moduleFile)

/-- The `build` command's compiled-artifact lookup (`src/codeenigma/cli.py`,
lines 193–194): `runtime_compiled = list(glob_file)[-1]`. -/
def build_runtime_lookup (globResults : List String) : Except PyErr String :=
  pyLast globResults

/-! ## The `build` command's merged-packaging step
(`src/codeenigma/cli.py`, lines 171–189)

```python
module_path: Path = Path(module_path)
module_name = module_path.parent.name
dist_path = current_dir.joinpath(output_dir)
path_module_obfuscated = dist_path.joinpath(module_name)
runtime_path = dist_path.joinpath("codeenigma_runtime")
dest = path_module_obfuscated.joinpath("codeenigma_runtime")
old_text = "from codeenigma_runtime"
new_text = f"from {module_name}.codeenigma_runtime"
for file in path_module_obfuscated.rglob("*.py"):
    file_text = file.read_text()
    text_replaced = file_text.replace(old_text, new_text)
    file.write_text(text_replaced)
shutil.move(runtime_path, dest)
```

Paths are modelled as lists of components (`pathlib.Path("a/b")` is
`["a", "b"]`).  `Path("a/b").parent` drops the last component;
`Path("b").parent` is `Path(".")`, whose `.name` is `""`. -/

/-- `pathlib.Path.name`: the final component (`""` for `.` and `/`). -/
def pathName (p : List String) : String := p.getLast?.getD ""

/-- `pathlib.Path.parent`: drop the final component. -/
def pathParent (p : List String) : List String := p.dropLast

/-- Result of the merged-packaging step: the `.py` files after the rewrite
loop (paths relative to `path_module_obfuscated`, with their contents), and
the source and destination of the `shutil.move`. -/
structure MergeRun where
  rewrittenFiles : List (List String × List Char)
  moveSrc : List String
  moveDest : List String
  deriving Repr

/-- The merged-packaging step of the `build` command.  `modulePath` is the
command's `module_path` argument; `outputDir` the `--output` value;
`pyFiles` the `rglob("*.py")` results under `path_module_obfuscated`. -/
def build_merged_packaging (modulePath : List String) (outputDir : String)
    (pyFiles : List (List String × List Char)) : MergeRun :=
  let module_name := pathName (pathParent modulePath)
  let old_text := "from codeenigma_runtime".data
  let new_text := ("from " ++ module_name ++ ".codeenigma_runtime").data
  { rewrittenFiles :=
      pyFiles.map (fun f => (f.1, pyReplace old_text new_text f.2))
    moveSrc := [outputDir, "codeenigma_runtime"]
    moveDest := [outputDir, module_name, "codeenigma_runtime"] }

/-! ## The encryption strategy (spec §4.1, §8)

Modelled from the spec: the `CodeEnigmaObfuscationStrategy`
(`codeenigma/strategies.py`) that implements `encrypt`/`decrypt` is not
under `src/` (only its importers are), so the authenticated encryption it
provides is modelled from the spec's words: "must use an authenticated mode
so tampering is detectable", a `CiphertextArtifact` is
"{relative path, payload bytes, integrity tag}" and "any bit flip in payload
or tag must make decryption fail deterministically".  The model is an
idealised encrypt-then-MAC authenticated stream cipher over byte lists:
the payload XORs each plaintext byte with a keystream derived from
(key, nonce, position), and the integrity tag is a keyed byte-injective
transform of the payload, recomputed and compared on decryption. -/

/-- Keystream byte at position `i`, derived from the build's key and nonce. -/
def keystream (key nonce i : Nat) : Nat := (key + (i + 1) * nonce) % 256

/-- XOR a byte list against the keystream starting at position `i`. -/
def xorStream (key nonce : Nat) : Nat → List Nat → List Nat
  | _, [] => []
  | i, b :: bs => (b ^^^ keystream key nonce i) :: xorStream key nonce (i + 1) bs

/-- The integrity tag over a payload: a keyed byte-wise injective map. -/
def macBytes (key : Nat) (payload : List Nat) : List Nat :=
  payload.map (fun b => b ^^^ (key % 256))

/-- Modelled from the spec: `encrypt(P, key, nonce)` returns the payload
bytes together with the integrity tag (spec §4.1, §8). -/
def encrypt (key nonce : Nat) (plaintext : List Nat) : List Nat × List Nat :=
  let payload := xorStream key nonce 0 plaintext
  (payload, macBytes key payload)

/-- Modelled from the spec: `decrypt` verifies the tag against the payload
and only then inverts the cipher; a tag mismatch fails (returns `none`),
never yielding altered plaintext (spec §4.1, §7, §8). -/
def decrypt (key nonce : Nat) (artifact : List Nat × List Nat) :
    Option (List Nat) :=
  if macBytes key artifact.1 = artifact.2 then
    some (xorStream key nonce 0 artifact.1)
  else
    none

/-! ## Theorems -/

/-- The accumulating loop of `prepare_runtime_code` produces the core code
followed by the fragments in order. -/
lemma foldl_append_eq_concat (r : String) (frags : List String) :
    frags.foldl (fun code fragment => code ++ fragment) r =
      r ++ concatFragments frags := by
  induction frags generalizing r with
  | nil => simp [concatFragments, String.append_empty]
  | cons f fs ih =>
    show fs.foldl (fun code fragment => code ++ fragment) (r ++ f) = _
    rw [ih (r ++ f), String.append_assoc]
    rfl

/-- C1: `prepare_runtime_code(path)` writes to `path` exactly the
strategy's runtime routine source followed by each extension's fragment in
registration order, and touches no other path. -/
theorem runtime_code_concatenation (runtimeCode : String)
    (fragments : List String) (path : String) (fs : FileSystem) :
    writeFile path (prepare_runtime_code runtimeCode fragments) fs path =
      some (runtimeCode ++ concatFragments fragments) ∧
    ∀ q, q ≠ path →
      writeFile path (prepare_runtime_code runtimeCode fragments) fs q = fs q := by
  constructor
  · show (if path = path then _ else _) = _
    rw [if_pos rfl, prepare_runtime_code, foldl_append_eq_concat]
  · intro q hq
    show (if q = path then _ else _) = _
    rw [if_neg hq]

/-- C1 witness: concrete core `"core"` and fragments `["A", "B"]` written to
path `"p"` over the empty file system. -/
theorem runtime_code_concatenation_witness :
    writeFile "p" (prepare_runtime_code "core" ["A", "B"]) (fun _ => none) "p" =
      some "coreAB" ∧
    ("q" : String) ≠ "p" ∧
    writeFile "p" (prepare_runtime_code "core" ["A", "B"]) (fun _ => none) "q" =
      none := by
  have h := runtime_code_concatenation "core" ["A", "B"] "p" (fun _ => none)
  refine ⟨?_, by decide, h.2 "q" (by decide)⟩
  rw [h.1]
  rfl

/-- C2: when `create_extension` raises during `CythonRuntimeBuilder.build`
(`extOk = false`), the error propagates, `create_wheel` is never invoked,
no cleanup deletion runs, and the intermediate `setup.py` and
`codeenigma_runtime.pyx` written into the output directory are left in
place — whatever `create_wheel` would have done. -/
theorem build_compile_failure_propagates (wheelOk : Bool) :
    (cythonBuild false wheelOk).2 = true ∧
    BuildEv.callCreateWheel ∉ (cythonBuild false wheelOk).1 ∧
    (∀ n, BuildEv.unlink n ∉ (cythonBuild false wheelOk).1) ∧
    BuildEv.rmdirBuild ∉ (cythonBuild false wheelOk).1 ∧
    "setup.py" ∈ finalFiles (cythonBuild false wheelOk).1 ∧
    "codeenigma_runtime.pyx" ∈ finalFiles (cythonBuild false wheelOk).1 := by
  cases wheelOk <;>
    exact ⟨rfl, by decide, fun n => by simp [cythonBuild], by decide,
      by decide, by decide⟩

/-- C7: when `create_extension` returns successfully, the trace splits into
a cleanup phase `l₁` and a packaging phase `l₂`: the three intermediate
files are unlinked in `l₁` and already absent at the end of `l₁` (so before
`create_wheel` runs, hence absent on both the packaging-success and the
packaging-failure path), the packaging phase performs no deletion, and the
only files the cleanup ever unlinks are those three. -/
theorem build_cleanup_before_packaging (wheelOk : Bool) :
    ∃ l₁ l₂ : List BuildEv,
      (cythonBuild true wheelOk).1 = l₁ ++ l₂ ∧
      BuildEv.unlink "setup.py" ∈ l₁ ∧
      BuildEv.unlink "codeenigma_runtime.pyx" ∈ l₁ ∧
      BuildEv.unlink "codeenigma_runtime.c" ∈ l₁ ∧
      "setup.py" ∉ finalFiles l₁ ∧
      "codeenigma_runtime.pyx" ∉ finalFiles l₁ ∧
      "codeenigma_runtime.c" ∉ finalFiles l₁ ∧
      BuildEv.callCreateWheel ∈ l₂ ∧
      (∀ n, BuildEv.unlink n ∉ l₂) ∧
      (∀ n, BuildEv.unlink n ∈ l₁ →
        n = "setup.py" ∨ n = "codeenigma_runtime.pyx" ∨
          n = "codeenigma_runtime.c") := by
  cases wheelOk <;>
  · refine ⟨[.mkdirOutput, .writeRuntimePyx, .writeSetupPy, .callCreateExt,
             .unlink "setup.py", .unlink "codeenigma_runtime.pyx",
             .unlink "codeenigma_runtime.c", .rmdirBuild],
            [.mkdirRuntimePkg, .moveModuleFile, .createInitFile,
             .createPyprojectToml, .callCreateWheel],
            rfl, by decide, by decide, by decide, by decide, by decide,
            by decide, by decide, ?_, ?_⟩
    · intro n
      simp
    · intro n hn
      simp at hn
      exact hn

/-- C3 counterexample: the empty string is not a valid ISO-format datetime
(`datetime.fromisoformat("")` raises `ValueError`, modelled by the parse
function), yet because `if expiration_date:` is false for `""` the command
skips both validation checks and proceeds to construct the `Orchestrator`
instead of exiting with code 1. -/
theorem obfuscate_empty_expiration_accepted :
    (fun _ : String => (Except.error () : Except Unit PyDatetime)) "" =
      Except.error () ∧
    obfuscateValidate true true (some "")
      (fun _ => Except.error ()) ⟨0, true⟩ = .proceed false ∧
    exitsCodeOne (obfuscateValidate true true (some "")
      (fun _ => Except.error ()) ⟨0, true⟩) = false := by
  exact ⟨rfl, rfl, rfl⟩

/-- C3 (amended: restricted to non-empty expiration strings): for every
non-empty `expiration_date` string that fails to parse as an ISO datetime
or denotes an instant earlier than the current time, the command exits with
code 1 before the `Orchestrator` is constructed. -/
theorem obfuscate_invalid_expiration_exits (s : String)
    (parseIso : String → Except Unit PyDatetime) (now : PyDatetime)
    (hs : s ≠ "")
    (hbad : parseIso s = .error () ∨
      ∃ d, parseIso s = .ok d ∧ d.instant < now.instant) :
    exitsCodeOne (obfuscateValidate true true (some s) parseIso now) = true ∧
    ∀ b, obfuscateValidate true true (some s) parseIso now ≠ .proceed b := by
  have horder : obfuscateValidate true true (some s) parseIso now =
      (match parseIso s with
       | .error _ => CliOutcome.exitBadFormat
       | .ok d =>
         match pyDatetimeLt d now with
         | .error _ => CliOutcome.typeErrorCrash
         | .ok true => CliOutcome.exitPastDate
         | .ok false => CliOutcome.proceed true) := by
    rw [obfuscateValidate]
    simp [hs]
  have hcase : obfuscateValidate true true (some s) parseIso now =
        .exitBadFormat ∨
      obfuscateValidate true true (some s) parseIso now = .exitPastDate ∨
      obfuscateValidate true true (some s) parseIso now = .typeErrorCrash := by
    rcases hbad with herr | ⟨d, hok, hlt⟩
    · left
      rw [horder, herr]
    · rw [horder, hok]
      by_cases haw : d.aware = now.aware
      · right
        left
        show (match pyDatetimeLt d now with
          | .error _ => CliOutcome.typeErrorCrash
          | .ok true => CliOutcome.exitPastDate
          | .ok false => CliOutcome.proceed true) = _
        rw [pyDatetimeLt, if_pos haw, decide_eq_true hlt]
      · right
        right
        show (match pyDatetimeLt d now with
          | .error _ => CliOutcome.typeErrorCrash
          | .ok true => CliOutcome.exitPastDate
          | .ok false => CliOutcome.proceed true) = _
        rw [pyDatetimeLt, if_neg haw]
  rcases hcase with hc | hc | hc <;>
    exact ⟨by rw [hc]; rfl, fun b hb => by rw [hc] at hb; cases hb⟩

/-- C3 witness: the string `"x"` with a parse function rejecting it. -/
theorem obfuscate_invalid_expiration_exits_witness :
    exitsCodeOne (obfuscateValidate true true (some "x")
      (fun _ => Except.error ()) ⟨0, true⟩) = true ∧
    ∀ b, obfuscateValidate true true (some "x")
      (fun _ => Except.error ()) ⟨0, true⟩ ≠ .proceed b :=
  obfuscate_invalid_expiration_exits "x" (fun _ => Except.error ()) ⟨0, true⟩
    (by decide) (Or.inl rfl)

/-- C6: when the module path does not exist or is not a directory, the
`obfuscate` command reports the corresponding error and exits with code 1,
never constructing the `Orchestrator`, whatever the expiration option is. -/
theorem obfuscate_missing_module_path_exits (pathExists pathIsDir : Bool)
    (expiration : Option String)
    (parseIso : String → Except Unit PyDatetime) (now : PyDatetime)
    (h : pathExists = false ∨ pathIsDir = false) :
    (obfuscateValidate pathExists pathIsDir expiration parseIso now =
        .exitMissingPath ∨
      obfuscateValidate pathExists pathIsDir expiration parseIso now =
        .exitNotDir) ∧
    exitsCodeOne
      (obfuscateValidate pathExists pathIsDir expiration parseIso now) =
        true ∧
    ∀ b, obfuscateValidate pathExists pathIsDir expiration parseIso now ≠
      .proceed b := by
  cases pathExists with
  | false => exact ⟨Or.inl rfl, rfl, fun b hb => by cases hb⟩
  | true =>
    cases pathIsDir with
    | false => exact ⟨Or.inr rfl, rfl, fun b hb => by cases hb⟩
    | true => rcases h with h | h <;> cases h

/-- C6 witness: a nonexistent module path with no expiration option. -/
theorem obfuscate_missing_module_path_exits_witness :
    (obfuscateValidate false true none
        (fun _ => Except.error ()) ⟨0, true⟩ = .exitMissingPath ∨
      obfuscateValidate false true none
        (fun _ => Except.error ()) ⟨0, true⟩ = .exitNotDir) ∧
    exitsCodeOne (obfuscateValidate false true none
      (fun _ => Except.error ()) ⟨0, true⟩) = true ∧
    ∀ b, obfuscateValidate false true none
      (fun _ => Except.error ()) ⟨0, true⟩ ≠ .proceed b :=
  obfuscate_missing_module_path_exits false true none
    (fun _ => Except.error ()) ⟨0, true⟩ (Or.inl rfl)

/-- C8: with `CODEENIGMA_BUILDING_EXE` set to anything other than `"0"`,
`PoetryBundler.create_wheel` (on a valid poetry `pyproject.toml`, with the
default `remove_readme=True` used by `CythonRuntimeBuilder.build`) runs no
build subprocess, moves nothing into `output_dir`, and returns `None` —
while it has still validated the file and removed its readme line. -/
theorem create_wheel_exe_mode_returns_none (pyproject : List Char)
    (env : String) (buildOk : Bool) (wheelGlob : List String)
    (outputDirGiven : Bool) (henv : env ≠ "0") :
    poetry_create_wheel true true pyproject true env buildOk wheelGlob
        outputDirGiven =
      { result := .ok none,
        pyproject := remove_readme_before_build pyproject,
        ranBuildSubprocess := false,
        movedWheelToOutput := false } := by
  rw [poetry_create_wheel]
  simp [henv]

/-- C8 witness: `CODEENIGMA_BUILDING_EXE = "1"` with a pyproject containing
the readme line, which is removed while no build runs. -/
theorem create_wheel_exe_mode_returns_none_witness :
    poetry_create_wheel true true
        "readme = \"README.md\"\nname".data true "1" true [] false =
      { result := .ok none,
        pyproject := "\nname".data,
        ranBuildSubprocess := false,
        movedWheelToOutput := false } := by
  rw [create_wheel_exe_mode_returns_none
    "readme = \"README.md\"\nname".data "1" true [] false (by decide)]
  rfl

/-- C9: after a successful compile subprocess, an empty compiled-module
glob makes `create_extension` of the Poetry, Standard and UV bundlers and
the `build` command's artifact lookup all fail with `IndexError` (Python
`list(...)[-1]` on an empty list), which is none of the declared bundler
errors. -/
theorem empty_glob_index_error (setupInParent outputDirGiven : Bool) :
    poetry_create_extension true setupInParent true [] outputDirGiven =
      .error .indexError ∧
    standard_create_extension true setupInParent true [] outputDirGiven =
      .error .indexError ∧
    uv_create_extension true setupInParent true [] outputDirGiven =
      .error .indexError ∧
    build_runtime_lookup [] = .error .indexError ∧
    PyErr.indexError ≠ PyErr.fileNotFoundError ∧
    PyErr.indexError ≠ PyErr.valueError ∧
    PyErr.indexError ≠ PyErr.calledProcessError := by
  cases setupInParent <;> cases outputDirGiven <;>
    exact ⟨rfl, rfl, rfl, rfl, by decide, by decide, by decide⟩

/-- A scan that finds no occurrence of the pattern changes nothing. -/
lemma pyReplaceAux_no_occurrence (pat rep : List Char) :
    ∀ (fuel : Nat) (l : List Char), containsSub pat l = false →
      pyReplaceAux pat rep fuel l = l := by
  intro fuel
  induction fuel with
  | zero => intro l _; rfl
  | succ n ih =>
    intro l h
    cases l with
    | nil => rfl
    | cons x xs =>
      have h' : pat.isPrefixOf (x :: xs) = false ∧ containsSub pat xs = false :=
        Bool.or_eq_false_iff.mp h
      have hcond : ¬(pat ≠ [] ∧ pat.isPrefixOf (x :: xs) = true) := by
        intro hc
        rw [h'.1] at hc
        exact Bool.false_ne_true hc.2
      rw [pyReplaceAux, if_neg hcond, ih xs h'.2]

/-- `str.replace` leaves any string without an occurrence of the pattern
byte-for-byte unchanged. -/
lemma pyReplace_no_occurrence (pat rep l : List Char)
    (h : containsSub pat l = false) : pyReplace pat rep l = l :=
  pyReplaceAux_no_occurrence pat rep l.length l h

/-- C10 counterexample: `remove_readme_before_build` is not idempotent.
On the content `readme = "READ` ++ literal ++ `ME.md"`, removing the
(explicit, leftmost-scanned) occurrence of the literal splices the
surrounding text into a fresh occurrence, so one application yields exactly
the literal and a second application deletes it. -/
theorem remove_readme_not_idempotent :
    remove_readme_before_build
        "readme = \"READreadme = \"README.md\"ME.md\"".data = readmeLit ∧
    remove_readme_before_build
        (remove_readme_before_build
          "readme = \"READreadme = \"README.md\"ME.md\"".data) = [] ∧
    remove_readme_before_build
        (remove_readme_before_build
          "readme = \"READreadme = \"README.md\"ME.md\"".data) ≠
      remove_readme_before_build
        "readme = \"READreadme = \"README.md\"ME.md\"".data := by
  refine ⟨by decide, by decide, by decide⟩

/-- C10 (amended: idempotence only holds when no new occurrence of the
literal is spliced together): a file not containing the literal
`readme = "README.md"` is left byte-for-byte unchanged; consequently,
whenever a single application leaves no occurrence of the literal, a second
application changes nothing; and the UV variant computes the same
transformation as the Poetry one. -/
theorem remove_readme_stable_when_literal_absent (content : List Char) :
    (containsSub readmeLit content = false →
      remove_readme_before_build content = content) ∧
    (containsSub readmeLit (remove_readme_before_build content) = false →
      remove_readme_before_build (remove_readme_before_build content) =
        remove_readme_before_build content) ∧
    uv_remove_readme_before_build content = remove_readme_before_build content :=
  ⟨fun h => pyReplace_no_occurrence _ _ _ h,
   fun h => pyReplace_no_occurrence _ _ _ h,
   rfl⟩

/-- C10 witness: a pyproject without the readme line is unchanged. -/
theorem remove_readme_stable_when_literal_absent_witness :
    containsSub readmeLit "name = \"pkg\"".data = false ∧
    remove_readme_before_build "name = \"pkg\"".data = "name = \"pkg\"".data :=
  ⟨by decide,
   (remove_readme_stable_when_literal_absent "name = \"pkg\"".data).1
     (by decide)⟩

/-- Applying the keystream twice restores the original byte list. -/
lemma xorStream_involution (key nonce : Nat) :
    ∀ (i : Nat) (l : List Nat),
      xorStream key nonce i (xorStream key nonce i l) = l := by
  intro i l
  induction l generalizing i with
  | nil => rfl
  | cons b bs ih =>
    simp only [xorStream, Nat.xor_assoc, Nat.xor_self, Nat.xor_zero]
    rw [ih]

/-- The integrity tag detects every byte change of the payload: if the tag
of a payload with byte `i` replaced agrees with the tag of the payload,
the replacement was the original byte. -/
lemma macBytes_set_eq (key : Nat) :
    ∀ (payload : List Nat) (i : Nat) (h : i < payload.length) (b : Nat),
      macBytes key (payload.set i b) = macBytes key payload →
        b = payload[i] := by
  intro payload
  induction payload with
  | nil => intro i h; cases h
  | cons x xs ih =>
    intro i h b heq
    cases i with
    | zero =>
      simp only [List.set_cons_zero, macBytes, List.map_cons,
        List.cons.injEq] at heq
      have h2 := congrArg (fun t => t ^^^ (key % 256)) heq.1
      simpa [Nat.xor_assoc, Nat.xor_self, Nat.xor_zero] using h2
    | succ j =>
      simp only [List.set_cons_succ, macBytes, List.map_cons,
        List.cons.injEq] at heq
      simp only [List.getElem_cons_succ]
      exact ih j (by simpa using h) b heq.2

/-- Replacing a byte by a different value yields a different list. -/
lemma set_ne_of_ne_getElem :
    ∀ (l : List Nat) (i : Nat) (h : i < l.length) (b : Nat),
      b ≠ l[i] → l.set i b ≠ l := by
  intro l
  induction l with
  | nil => intro i h; cases h
  | cons x xs ih =>
    intro i h b hb heq
    cases i with
    | zero =>
      simp only [List.set_cons_zero, List.cons.injEq] at heq
      exact hb (by simpa using heq.1)
    | succ j =>
      simp only [List.set_cons_succ, List.cons.injEq] at heq
      exact ih j (by simpa using h) b (by simpa using hb) heq.2

/-- C5: decrypting `encrypt(P, key, nonce)` with the same key and nonce
returns `P`; replacing any single byte of the payload or of the integrity
tag by a different value makes decryption fail (return `none`), never
yielding altered plaintext.  (Modelled from the spec: the strategy module
is not under `src/`.) -/
theorem encrypt_decrypt_roundtrip_and_tamper (key nonce : Nat)
    (p : List Nat) (i b : Nat) :
    decrypt key nonce (encrypt key nonce p) = some p ∧
    (∀ h : i < (encrypt key nonce p).1.length,
      b ≠ (encrypt key nonce p).1[i] →
        decrypt key nonce
          ((encrypt key nonce p).1.set i b, (encrypt key nonce p).2) =
          none) ∧
    (∀ h : i < (encrypt key nonce p).2.length,
      b ≠ (encrypt key nonce p).2[i] →
        decrypt key nonce
          ((encrypt key nonce p).1, (encrypt key nonce p).2.set i b) =
          none) := by
  refine ⟨?_, ?_, ?_⟩
  · rw [encrypt, decrypt, if_pos rfl, xorStream_involution]
  · intro h hb
    rw [decrypt]
    exact if_neg (fun hc => hb (macBytes_set_eq key _ i h b hc))
  · intro h hb
    rw [decrypt]
    exact if_neg (fun hc => set_ne_of_ne_getElem _ i h b hb hc.symm)

/-- C5 witness: key 7, nonce 3, plaintext `[1, 2, 3]`; corrupting payload
byte 0 or tag byte 0 to 0 makes decryption fail. -/
theorem encrypt_decrypt_roundtrip_and_tamper_witness :
    decrypt 7 3 (encrypt 7 3 [1, 2, 3]) = some [1, 2, 3] ∧
    (0 : Nat) < (encrypt 7 3 [1, 2, 3]).1.length ∧
    decrypt 7 3 ((encrypt 7 3 [1, 2, 3]).1.set 0 0,
      (encrypt 7 3 [1, 2, 3]).2) = none ∧
    (0 : Nat) < (encrypt 7 3 [1, 2, 3]).2.length ∧
    decrypt 7 3 ((encrypt 7 3 [1, 2, 3]).1,
      (encrypt 7 3 [1, 2, 3]).2.set 0 0) = none :=
  ⟨(encrypt_decrypt_roundtrip_and_tamper 7 3 [1, 2, 3] 0 0).1,
   by decide,
   (encrypt_decrypt_roundtrip_and_tamper 7 3 [1, 2, 3] 0 0).2.1
     (by decide) (by decide),
   by decide,
   (encrypt_decrypt_roundtrip_and_tamper 7 3 [1, 2, 3] 0 0).2.2
     (by decide) (by decide)⟩

/-- C4 counterexample: `build` computes
`module_name = module_path.parent.name`, the name of the module path's
PARENT directory, not the application module's own name.  For
`module_path = a/b` (own name `"b"`, parent name `"a"`), the stub rewrite
produces `from a.codeenigma_runtime` — not `from b.codeenigma_runtime` as
the claim states — and the runtime directory is moved under `cedist/a`,
not `cedist/b`. -/
theorem merged_packaging_uses_parent_name :
    pathName ["a", "b"] = "b" ∧
    (build_merged_packaging ["a", "b"] "cedist"
        [(["m.py"], "from codeenigma_runtime import ce".data)]).rewrittenFiles =
      [(["m.py"], "from a.codeenigma_runtime import ce".data)] ∧
    (build_merged_packaging ["a", "b"] "cedist"
        [(["m.py"], "from codeenigma_runtime import ce".data)]).rewrittenFiles ≠
      [(["m.py"], "from b.codeenigma_runtime import ce".data)] ∧
    (build_merged_packaging ["a", "b"] "cedist"
        [(["m.py"], "from codeenigma_runtime import ce".data)]).moveDest =
      ["cedist", "a", "codeenigma_runtime"] ∧
    (build_merged_packaging ["a", "b"] "cedist"
        [(["m.py"], "from codeenigma_runtime import ce".data)]).moveDest ≠
      ["cedist", "b", "codeenigma_runtime"] :=
  ⟨by decide, by decide, by decide, by decide, by decide⟩

/-- C4 (amended: the name spliced into the rewritten imports and the move
destination is the name of the module path's parent directory): during
merged packaging every globbed `.py` file has each occurrence of
`from codeenigma_runtime` replaced by `from <parent-name>.codeenigma_runtime`,
the runtime directory is moved from the output directory into
`<output>/<parent-name>/codeenigma_runtime`, and a file containing no
such reference is left unchanged. -/
theorem merged_packaging_rewrite_and_move (modulePath : List String)
    (outputDir : String) (pyFiles : List (List String × List Char)) :
    (build_merged_packaging modulePath outputDir pyFiles).rewrittenFiles =
      pyFiles.map (fun f => (f.1,
        pyReplace "from codeenigma_runtime".data
          ("from " ++ pathName (pathParent modulePath) ++
            ".codeenigma_runtime").data f.2)) ∧
    (build_merged_packaging modulePath outputDir pyFiles).moveSrc =
      [outputDir, "codeenigma_runtime"] ∧
    (build_merged_packaging modulePath outputDir pyFiles).moveDest =
      [outputDir, pathName (pathParent modulePath), "codeenigma_runtime"] ∧
    ∀ f ∈ pyFiles,
      containsSub "from codeenigma_runtime".data f.2 = false →
        (f.1, f.2) ∈
          (build_merged_packaging modulePath outputDir pyFiles).rewrittenFiles := by
  refine ⟨rfl, rfl, rfl, ?_⟩
  intro f hf hnone
  have hkeep : (f.1, pyReplace "from codeenigma_runtime".data
      ("from " ++ pathName (pathParent modulePath) ++
        ".codeenigma_runtime").data f.2) = (f.1, f.2) := by
    rw [pyReplace_no_occurrence _ _ _ hnone]
  exact hkeep ▸ List.mem_map_of_mem _ hf

/-- C4 witness: a file without the runtime import is left unchanged and the
move destination uses the parent-directory name. -/
theorem merged_packaging_rewrite_and_move_witness :
    (build_merged_packaging ["a", "b"] "cedist"
        [(["x.py"], "pass".data)]).moveDest =
      ["cedist", pathName (pathParent ["a", "b"]), "codeenigma_runtime"] ∧
    (["x.py"], "pass".data) ∈
      (build_merged_packaging ["a", "b"] "cedist"
        [(["x.py"], "pass".data)]).rewrittenFiles :=
  ⟨(merged_packaging_rewrite_and_move ["a", "b"] "cedist"
      [(["x.py"], "pass".data)]).2.2.1,
   (merged_packaging_rewrite_and_move ["a", "b"] "cedist"
      [(["x.py"], "pass".data)]).2.2.2 (["x.py"], "pass".data)
     (by decide) (by decide)⟩

end CodeEnigma
